import Mathlib

/-!
Verification of the MapBiomas countries-mosaics per-pixel raster pipeline.

Each definition is a shallow embedding of a function of the Python source
(src/modules/SmaAndNdfi.py, src/modules/CloudAndShadowMaskC2.py,
src/modules/Collection.py, src/modules/Mosaic.py and the main script
src/countries/mapbiomas_mosaics_collection_9_landsat_v1.py), modelled per
pixel.  Earth Engine built-ins are modelled as follows:

* `byte()` casts saturate to the unsigned 8-bit range [0, 255] and drop the
  fractional part (`byteInt`, `byteQ`);
* `Image.unmix` with default arguments performs unconstrained least squares,
  so its per-pixel output is an arbitrary rational 4-vector (any vector is
  attained exactly, e.g. by a pixel that is an exact multiple of one
  endmember spectrum, see `mixPixel_two_cloud`);
* `ee.Reducer.percentile` on raw values is modelled as linear interpolation
  over the sorted sample (`interpPercentile`); division by zero in ℚ
  follows the Lean convention x / 0 = 0 and is excluded by hypotheses
  whenever an Earth Engine operation would mask the pixel instead.

The file is organised as definitions first, then theorems.
-/

namespace MBM

/- ================= Definitions ==================================== -/

/-- Saturating cast of an integer to the unsigned 8-bit range, as the Earth
Engine byte() cast does. -/
def byteInt (z : ℤ) : ℤ := min 255 (max 0 z)

/-- Earth Engine byte() cast of a rational value: take the integer part and
saturate to [0, 255].  (Truncation toward zero and floor agree after the
clamp at 0.) -/
def byteQ (x : ℚ) : ℤ := byteInt ⌊x⌋

/- C1 : getFractions (src/modules/SmaAndNdfi.py, lines 232-260) -/

/-- The Landsat-8 endmember matrix of src/modules/SmaAndNdfi.py
(rows gv, npv, soil, cloud; columns blue, green, red, nir, swir1, swir2). -/
def emL8 : Fin 4 → Fin 6 → ℚ :=
  ![![119, 475, 169, 6250, 2399, 675],
    ![1514, 1597, 1421, 3053, 7707, 1975],
    ![1799, 2479, 3158, 5437, 7707, 6646],
    ![4031, 8714, 7900, 8989, 7002, 6607]]

/-- The linear mixture of the endmember spectra with coefficients f:
the forward model that Image.unmix inverts by least squares. -/
def mixPixel (f : Fin 4 → ℚ) : Fin 6 → ℚ :=
  fun j => ∑ i, f i * emL8 i j

/-- The five fraction bands added by getFractions. -/
structure FractionBands where
  gv : ℤ
  npv : ℤ
  soil : ℤ
  cloud : ℤ
  shade : ℤ
deriving DecidableEq

/-- One fraction band: the raw unmixing solution component is clamped at 0
(`.max(0)`), scaled by 100 (`.multiply(100)`) and byte cast (`.byte()`),
exactly as in getFractions. -/
def fracBand (x : ℚ) : ℤ := byteQ (max x 0 * 100)

/-- getFractions per pixel.  `g n s c` are the components of the raw
unmixing solution for that pixel (unconstrained least squares, see module
doc).  The shade band is `|gv + npv + soil − 100|` byte cast, computed from
the already-cast fraction bands as in the source. -/
def getFractions (g n s c : ℚ) : FractionBands :=
  { gv := fracBand g, npv := fracBand n, soil := fracBand s, cloud := fracBand c,
    shade := byteInt |fracBand g + fracBand n + fracBand s - 100| }

/-- Claim C1 as stated: all four unmixed fractions lie in [0, 100] and the
shade band is `|100 − (gv+npv+soil)|` clipped to [0, 100]. -/
def ClaimC1 (g n s c : ℚ) : Prop :=
  (0 ≤ (getFractions g n s c).gv ∧ (getFractions g n s c).gv ≤ 100) ∧
  (0 ≤ (getFractions g n s c).npv ∧ (getFractions g n s c).npv ≤ 100) ∧
  (0 ≤ (getFractions g n s c).soil ∧ (getFractions g n s c).soil ≤ 100) ∧
  (0 ≤ (getFractions g n s c).cloud ∧ (getFractions g n s c).cloud ≤ 100) ∧
  (getFractions g n s c).shade =
    min 100 |100 - ((getFractions g n s c).gv + (getFractions g n s c).npv +
      (getFractions g n s c).soil)|

instance (g n s c : ℚ) : Decidable (ClaimC1 g n s c) := by
  unfold ClaimC1; infer_instance

/- C2 : cloudScoreMask (src/modules/CloudAndShadowMaskC2.py, 32-149) -/

/-- The six calibrated reflectance values of one pixel (fixed point,
reflectance times 10000). -/
structure Px where
  blue : ℚ
  green : ℚ
  red : ℚ
  nir : ℚ
  swir1 : ℚ
  swir2 : ℚ

/-- rescale of CloudAndShadowMaskC2.py lines 32-67:
(value − min) / (max − min), with no clamping of its own. -/
def rescaleQ (v mn mx : ℚ) : ℚ := (v - mn) / (mx - mn)

/-- The NDSI normalized difference (green, swir1) used by test 4. -/
def ndsiQ (p : Px) : ℚ := (p.green - p.swir1) / (p.green + p.swir1)

/-- cloudScoreMask score accumulation (lines 117-146): start at 1.0 and take
the minimum with each rescaled brightness test in source order. -/
def cloudScoreQ (p : Px) : ℚ :=
  min (min (min (min 1 (rescaleQ p.blue 1000 3000))
    (rescaleQ (p.red + p.green + p.blue) 2000 8000))
    (rescaleQ (p.nir + p.swir1 + p.swir2) 3000 8000))
    (rescaleQ (ndsiQ p) (4 / 5) (3 / 5))

/-- The stored per-pixel score: multiply(100) and byte() (line 146). -/
def cloudScoreValue (p : Px) : ℤ := byteQ (cloudScoreQ p * 100)

/-- The boolean cloud flag: score.gte(cloudThresh) (line 147). -/
def cloudScoreFlag (p : Px) (cloudThresh : ℤ) : Bool :=
  decide (cloudThresh ≤ cloudScoreValue p)

/-- Clamp to [0, 1], the claim-side normalization of each test. -/
def clamp01 (x : ℚ) : ℚ := max 0 (min 1 x)

/-- Claim-side score: each of the four tests is linearly rescaled against
its fixed bounds, clamped to [0, 1], and the pixel score is the minimum of
the four clamped tests. -/
def specCloudScore (p : Px) : ℚ :=
  min (min (min (clamp01 (rescaleQ p.blue 1000 3000))
    (clamp01 (rescaleQ (p.red + p.green + p.blue) 2000 8000)))
    (clamp01 (rescaleQ (p.nir + p.swir1 + p.swir2) 3000 8000)))
    (clamp01 (rescaleQ (ndsiQ p) (4 / 5) (3 / 5)))

/-- Claim-side flag: the score scaled by 100 is compared against the
threshold. -/
def specCloudFlag (p : Px) (cloudThresh : ℤ) : Bool :=
  decide ((cloudThresh : ℚ) ≤ specCloudScore p * 100)

/- C6 : getNDFI / getSEFI / getWEFI / getFNS (SmaAndNdfi.py, 331-618) -/

/-- Per-pixel normalizedDifference: (a − b) / (a + b).  Earth Engine masks
the pixel when a + b = 0; theorems carry that as a hypothesis. -/
def ndQ (a b : ℚ) : ℚ := (a - b) / (a + b)

/-- gvs band of getNDFI (lines 412-416): gv divided by gv+npv+soil, scaled
by 100 and byte cast.  Inputs are the integer fraction bands. -/
def gvsB (g n s : ℕ) : ℤ := byteQ ((g : ℚ) / ((g : ℚ) + n + s) * 100)

/-- ndfi band (lines 419-429): normalized difference of gvs and npv+soil,
rescaled by x * 100 + 100 and byte cast. -/
def ndfiB (g n s : ℕ) : ℤ :=
  byteQ (ndQ ((gvsB g n s : ℚ)) ((n : ℚ) + s) * 100 + 100)

/-- sefi band (getSEFI, lines 490-507): normalized difference of
(gv+npv)/(gv+npv+soil)*100 (not byte cast in the source) and soil. -/
def sefiB (g n s : ℕ) : ℤ :=
  byteQ (ndQ (((g : ℚ) + n) / ((g : ℚ) + n + s) * 100) (s : ℚ) * 100 + 100)

/-- The shade residual recomputed inside getWEFI and getFNS
(lines 578 and 605): |gv+npv+soil − 100| byte cast. -/
def shadeOf (g n s : ℕ) : ℤ := byteInt |(g : ℤ) + n + s - 100|

/-- wefi band (getWEFI, lines 569-592): normalized difference of gv+npv
and soil+shade. -/
def wefiB (g n s : ℕ) : ℤ :=
  byteQ (ndQ ((g : ℚ) + n) ((s : ℚ) + (shadeOf g n s : ℚ)) * 100 + 100)

/-- fns band (getFNS, lines 600-618): normalized difference of gv+shade
and soil. -/
def fnsB (g n s : ℕ) : ℤ :=
  byteQ (ndQ ((g : ℚ) + (shadeOf g n s : ℚ)) (s : ℚ) * 100 + 100)

/- Shared model of ee.Reducer.percentile / median on raw values -/

/-- Model of ee.Reducer.percentile on a raw sample: sort and linearly
interpolate at rank p/100 * (n − 1) (the numpy default convention).  For
the sample sizes in the unit tests below, the nearest-rank convention
produces the same values at p = 25 and p = 75, so the theorems that use
those values do not hinge on the interpolation fine print. -/
def interpPercentile (p : ℚ) (xs : List ℚ) : ℚ :=
  let s := List.insertionSort (fun a b => a ≤ b) xs
  if s.length = 0 then 0 else
    let h : ℚ := p * ((s.length : ℚ) - 1) / 100
    let i : ℕ := (⌊h⌋).toNat
    let a := s.getD i 0
    a + (h - (i : ℚ)) * (s.getD (i + 1) a - a)

/- C5 : applyCloudAndShadowMask (main script, lines 480-521) over the
   mask bands produced by getMasks (CloudAndShadowMaskC2.py, 624-794) -/

/-- The five per-pixel mask-band values attached by getMasks with all
methods enabled (cloudFlag, cloudScore, cloudShadowFlag, cloudShadowTdom:
see the call at lines 493-506 of the main script). -/
structure MaskBands where
  cloudFlagMask : Bool
  cloudScoreMask : Bool
  cloudShadowFlagMask : Bool
  tdomMask : Bool
  cloudShadowTdomMask : Bool
deriving DecidableEq

/-- ee.Reducer.anyNonZero over a list of boolean mask values. -/
def anyNonZeroL (l : List Bool) : Bool := l.any id

/-- The valid-pixel mask of applyCloudAndShadowMask (lines 509-519): the
anyNonZero reduction over cloudFlagMask, cloudScoreMask and
cloudShadowFlagMask compared with 0.  The cloudShadowTdomMask band is left
out of the reduced band list in the source (commented out at line 516). -/
def validMask (m : MaskBands) : Bool :=
  anyNonZeroL [m.cloudFlagMask, m.cloudScoreMask, m.cloudShadowFlagMask] == false

/-- image.mask(validMask): a pixel of a per-scene band survives with its
value when valid, and becomes missing (masked) otherwise. -/
def applyMaskValue (m : MaskBands) (v : ℚ) : Option ℚ :=
  if validMask m then some v else none

/-- A per-pixel median across scenes: masked (missing) scene values are
dropped before reducing, they are not treated as zeros. -/
def medianMasked (xs : List (Option ℚ)) : ℚ :=
  interpPercentile 50 (xs.filterMap id)

/-- Claim C5 as stated: with all methods enabled, valid is the negation of
the OR over the QA cloud flag, the spectral cloud score, the QA shadow
flag, and the TDOM / projected-shadow masks. -/
def ClaimC5 (m : MaskBands) : Prop :=
  validMask m = !(m.cloudFlagMask || m.cloudScoreMask || m.cloudShadowFlagMask ||
    m.tdomMask || m.cloudShadowTdomMask)

/- C7 : getMosaic dry/wet percentile compositing (Mosaic.py, 23-184) -/

/-- The quality-band values of the unmasked scenes of a collection at one
pixel.  A scene is `some (q, v)` with q the quality band (ndvi by default)
and v any other band, or `none` when the pixel is masked in that scene. -/
def qualityVals (coll : List (Option (ℚ × ℚ))) : List ℚ :=
  coll.filterMap (fun o => o.map Prod.fst)

/-- The other-band values of the unmasked scenes at one pixel. -/
def bandVals (coll : List (Option (ℚ × ℚ))) : List ℚ :=
  coll.filterMap (fun o => o.map Prod.snd)

/-- The dry threshold raster of getMosaic (lines 112-114): the
percentileDry-th percentile of the quality band across the collection. -/
def dryThr (coll : List (Option (ℚ × ℚ))) (pDry : ℚ) : ℚ :=
  interpPercentile pDry (qualityVals coll)

/-- The wet threshold raster (lines 128-130). -/
def wetThr (coll : List (Option (ℚ × ℚ))) (pWet : ℚ) : ℚ :=
  interpPercentile pWet (qualityVals coll)

/-- The dry sub-collection (lines 118-121): each scene keeps the pixels
where the quality band is lte the dry threshold. -/
def maskDry (coll : List (Option (ℚ × ℚ))) (pDry : ℚ) : List (Option (ℚ × ℚ)) :=
  coll.map (fun o => o.bind
    (fun sv => if sv.1 ≤ dryThr coll pDry then some sv else none))

/-- The wet sub-collection (lines 134-137): gte the wet threshold. -/
def maskWet (coll : List (Option (ℚ × ℚ))) (pWet : ℚ) : List (Option (ℚ × ℚ)) :=
  coll.map (fun o => o.bind
    (fun sv => if wetThr coll pWet ≤ sv.1 then some sv else none))

/-- The dry-season median band (line 149). -/
def medianDryBand (coll : List (Option (ℚ × ℚ))) (pDry : ℚ) : ℚ :=
  interpPercentile 50 (bandVals (maskDry coll pDry))

/-- The wet-season median band (line 153). -/
def medianWetBand (coll : List (Option (ℚ × ℚ))) (pWet : ℚ) : ℚ :=
  interpPercentile 50 (bandVals (maskWet coll pWet))

/-- The 5-scene series of the unit test, with quality-band values
10, 20, 30, 70, 90 (the second component plays the generic band). -/
def testColl : List (Option (ℚ × ℚ)) :=
  [some (10, 10), some (20, 20), some (30, 30), some (70, 70), some (90, 90)]

/-- Claim C7 as stated on the test series: the dry sub-collection keeps
only the scene with value 10, the wet one only the scene with value 90,
and the dry/wet medians equal those scenes own values. -/
def ClaimC7 : Prop :=
  qualityVals (maskDry testColl 25) = [10] ∧
  qualityVals (maskWet testColl 75) = [90] ∧
  medianDryBand testColl 25 = 10 ∧
  medianWetBand testColl 75 = 90

/- C8, C10 : setProperties and the cloud-cover filter of getCollection
   (src/modules/Collection.py, lines 28-123 and 259-416) -/

/-- The raw per-scene property bag read by setProperties.  Every source
property may be absent (none). -/
structure SceneProps where
  SPACECRAFT_NAME : Option String
  CLOUDY_PIXEL_PERCENTAGE : Option ℚ
  CLOUD_COVER : Option ℚ
  DATE_ACQUIRED : Option String
  SENSING_TIME : Option String
  GENERATION_TIME : Option String
  SPACECRAFT_ID : Option String
  SATELLITE : Option String
  SUN_AZIMUTH : Option ℚ
  SOLAR_AZIMUTH_ANGLE : Option ℚ
  MEAN_SOLAR_AZIMUTH_ANGLE : Option ℚ
  SUN_ELEVATION : Option ℚ
  SOLAR_ZENITH_ANGLE : Option ℚ
  MEAN_SOLAR_ZENITH_ANGLE : Option ℚ
deriving DecidableEq

/-- ee.Algorithms.If truthiness of a possibly-absent numeric property:
null and 0 are falsy. -/
def truthyQ : Option ℚ → Bool
  | none => false
  | some v => v != 0

/-- ee.Algorithms.If truthiness of a possibly-absent string property:
null and the empty string are falsy. -/
def truthyS : Option String → Bool
  | none => false
  | some s => !s.isEmpty

/-- The canonical cloud_cover property (setProperties, lines 83-85): keyed
on the presence of SPACECRAFT_NAME (Sentinel-2), not a first-present-wins
chain. -/
def propCloudCover (p : SceneProps) : Option ℚ :=
  if truthyS p.SPACECRAFT_NAME then p.CLOUDY_PIXEL_PERCENTAGE else p.CLOUD_COVER

/-- The canonical date property (lines 88-92): DATE_ACQUIRED, then
SENSING_TIME, then GENERATION_TIME. -/
def propDate (p : SceneProps) : Option String :=
  if truthyS p.DATE_ACQUIRED then p.DATE_ACQUIRED
  else if truthyS p.SENSING_TIME then p.SENSING_TIME
  else p.GENERATION_TIME

/-- The canonical satellite property (lines 95-99). -/
def propSatellite (p : SceneProps) : Option String :=
  if truthyS p.SPACECRAFT_ID then p.SPACECRAFT_ID
  else if truthyS p.SATELLITE then p.SATELLITE
  else p.SPACECRAFT_NAME

/-- The canonical sun_azimuth_angle property (lines 102-106). -/
def propAzimuth (p : SceneProps) : Option ℚ :=
  if truthyQ p.SUN_AZIMUTH then p.SUN_AZIMUTH
  else if truthyQ p.SOLAR_AZIMUTH_ANGLE then p.SOLAR_AZIMUTH_ANGLE
  else p.MEAN_SOLAR_AZIMUTH_ANGLE

/-- The canonical sun_elevation_angle property (lines 110-115): zenith
angles are converted with elevation = 90 − zenith. -/
def propElevation (p : SceneProps) : Option ℚ :=
  if truthyQ p.SUN_ELEVATION then p.SUN_ELEVATION
  else if truthyQ p.SOLAR_ZENITH_ANGLE then
    p.SOLAR_ZENITH_ANGLE.map (fun z => 90 - z)
  else p.MEAN_SOLAR_ZENITH_ANGLE.map (fun z => 90 - z)

/-- The final cloud-cover filter of getCollection (lines 413-414):
filterMetadata cloud_cover less_than cloudCover.  A scene whose normalized
cloud_cover is null does not pass the filter. -/
def cloudCoverFilterKeep (p : SceneProps) (ceiling : ℚ) : Bool :=
  match propCloudCover p with
  | some c => decide (c < ceiling)
  | none => false

/-- Claim C8 as stated: a scene lacking every candidate source property of
some required canonical field is excluded from the collection (flagged
and dropped from temporal statistics). -/
def ClaimC8 : Prop :=
  ∀ (p : SceneProps) (ceiling : ℚ),
    (propCloudCover p = none ∨ propDate p = none ∨ propSatellite p = none ∨
      propAzimuth p = none ∨ propElevation p = none) →
    cloudCoverFilterKeep p ceiling = false

/-- A Landsat-style scene with cloud cover 10 and a date, but with every
solar-azimuth candidate property absent. -/
def sceneNoAzimuth : SceneProps :=
  { SPACECRAFT_NAME := none
    CLOUDY_PIXEL_PERCENTAGE := none
    CLOUD_COVER := some 10
    DATE_ACQUIRED := some "2020-06-01"
    SENSING_TIME := none
    GENERATION_TIME := none
    SPACECRAFT_ID := some "LANDSAT_8"
    SATELLITE := none
    SUN_AZIMUTH := none
    SOLAR_AZIMUTH_ANGLE := none
    MEAN_SOLAR_AZIMUTH_ANGLE := none
    SUN_ELEVATION := some 45
    SOLAR_ZENITH_ANGLE := none
    MEAN_SOLAR_ZENITH_ANGLE := none }

/-- A Landsat-style scene with every cloud-cover candidate absent. -/
def sceneNoCloud : SceneProps :=
  { sceneNoAzimuth with CLOUD_COVER := none, SUN_AZIMUTH := some 150 }

/-- A Landsat-style scene reporting exactly 100 percent cloud cover. -/
def sceneFullClouds : SceneProps :=
  { sceneNoAzimuth with CLOUD_COVER := some 100, SUN_AZIMUTH := some 150 }

/- C9 : the main processing loop except handler
   (src/countries/mapbiomas_mosaics_collection_9_landsat_v1.py, 791-797) -/

/-- The queue-limit message the handler compares against (line 793). -/
def quotaMessage : String :=
  "Too many tasks already in the queue (3000). Please wait for some of them to complete."

/-- The Python comparison e == msg at line 796, where e is the caught
Exception object and msg a str: default object equality between an
Exception instance and a string is always False, whatever the message
text is.  The exception is modelled by its message string. -/
def pyExceptionEqStr (_emsg _target : String) : Bool := false

/-- The per-tile loop body with its except handler: each tile is attempted
once; on an exception the message is printed and the loop moves on, unless
the comparison with the queue-limit message succeeds, in which case the
exception is re-raised and the run aborts.  A tile outcome is none on
success and some message on an exception.  Returns the list of attempt
counts for the tiles that were reached and whether the run aborted. -/
def runBatch : List (Option String) → List ℕ × Bool
  | [] => ([], false)
  | outcome :: rest =>
    match outcome with
    | none =>
      let r := runBatch rest
      (1 :: r.1, r.2)
    | some emsg =>
      if pyExceptionEqStr emsg quotaMessage then ([1], true)
      else
        let r := runBatch rest
        (1 :: r.1, r.2)

/-- Claim C9 as stated: a quota-exceeded outcome is retried (with backoff,
so at least two submission attempts for that tile) before surfacing. -/
def ClaimC9 : Prop :=
  ∀ rest : List (Option String),
    2 ≤ ((runBatch (some quotaMessage :: rest)).1.getD 0 0)

/- C3 : tdom (src/modules/CloudAndShadowMaskC2.py, lines 152-252) -/

noncomputable section

/-- One scene restricted to the two TDOM bands (nir, swir1), as per-pixel
real-valued rasters on the integer grid. -/
structure SceneIR where
  nir : ℤ × ℤ → ℝ
  swir1 : ℤ × ℤ → ℝ

/-- The values of one band at one pixel across a scene collection. -/
def bandList (coll : List SceneIR) (f : SceneIR → ℤ × ℤ → ℝ) (q : ℤ × ℤ) : List ℝ :=
  coll.map (fun s => f s q)

/-- The temporal mean (collection.mean, line 218). -/
def lMean (xs : List ℝ) : ℝ := xs.sum / xs.length

/-- The temporal population variance underlying ee.Reducer.stdDev. -/
def lVar (xs : List ℝ) : ℝ := ((xs.map (fun x => (x - lMean xs) ^ 2)).sum) / xs.length

/-- The temporal standard deviation (ee.Reducer.stdDev, line 215:
population convention, dividing by the count). -/
def lStd (xs : List ℝ) : ℝ := Real.sqrt (lVar xs)

/-- The per-band z-score (lines 228-230): (value − mean) / stdDev. -/
def zScoreR (v mean std : ℝ) : ℝ := (v - mean) / std

open Classical in
/-- A boolean test as the 0/1 raster that Earth Engine comparisons
produce. -/
def indicator01 (P : Prop) : ℕ := if P then 1 else 0

/-- The raw dark-outlier test of _maskDarkOutliers (lines 239-242):
zScore.lt(zScoreThresh) per band, reduced with sum and compared with 2,
and-ed with irSum.lt(shadowSumThresh). -/
def darkOutlierRaw (coll : List SceneIR) (zThresh sumThresh : ℝ)
    (s : SceneIR) (q : ℤ × ℤ) : Prop :=
  indicator01 (zScoreR (s.nir q) (lMean (bandList coll SceneIR.nir q))
      (lStd (bandList coll SceneIR.nir q)) < zThresh) +
    indicator01 (zScoreR (s.swir1 q) (lMean (bandList coll SceneIR.swir1 q))
      (lStd (bandList coll SceneIR.swir1 q)) < zThresh) = 2 ∧
  s.nir q + s.swir1 q < sumThresh

/-- focal_min with radius r (circular kernel): the mask holds at q iff it
holds on the whole disk of radius r around q. -/
def focalMinP (r : ℤ) (m : ℤ × ℤ → Prop) (q : ℤ × ℤ) : Prop :=
  ∀ u : ℤ × ℤ, (u.1 - q.1) ^ 2 + (u.2 - q.2) ^ 2 ≤ r ^ 2 → m u

/-- The tdomMask band of one scene (lines 239-247): the raw dark-outlier
test followed by focal_min(dilatePixels). -/
def tdomMaskOf (coll : List SceneIR) (zThresh sumThresh : ℝ) (r : ℤ)
    (s : SceneIR) (q : ℤ × ℤ) : Prop :=
  focalMinP r (darkOutlierRaw coll zThresh sumThresh s) q

/-- The claim-side dark-outlier predicate: z-score below the threshold for
both bands AND the band sum below the darkness threshold. -/
def specDarkOutlier (coll : List SceneIR) (zThresh sumThresh : ℝ)
    (s : SceneIR) (q : ℤ × ℤ) : Prop :=
  zScoreR (s.nir q) (lMean (bandList coll SceneIR.nir q))
      (lStd (bandList coll SceneIR.nir q)) < zThresh ∧
  zScoreR (s.swir1 q) (lMean (bandList coll SceneIR.swir1 q))
      (lStd (bandList coll SceneIR.swir1 q)) < zThresh ∧
  s.nir q + s.swir1 q < sumThresh

/-- A spatially uniform synthetic scene with the given value on both
bands. -/
def constSceneIR (v : ℝ) : SceneIR := ⟨fun _ => v, fun _ => v⟩

/-- The TDOM unit-test collection: 9 scenes with NIR = SWIR1 = 4000
(NIR+SWIR1 = 8000) and 1 scene with NIR = SWIR1 = 500 (NIR+SWIR1 =
1000). -/
def tdomTestColl : List SceneIR :=
  List.replicate 9 (constSceneIR 4000) ++ [constSceneIR 500]

end

/- C4 : cloudProject (src/modules/CloudAndShadowMaskC2.py, 255-400) -/

noncomputable section

/-- The inputs of cloudProject at one scene: the cloud mask band
(cloudBand), the tdomMask band, the three dark-test bands, and the solar
geometry metadata with the pixel size (nominalScale). -/
structure ShadowInput where
  cloud : ℤ × ℤ → Prop
  tdomM : ℤ × ℤ → Prop
  nir : ℤ × ℤ → ℚ
  swir1 : ℤ × ℤ → ℚ
  swir2 : ℤ × ℤ → ℚ
  azimuth : ℝ
  elevation : ℝ
  scale : ℝ

/-- azR (lines 341-344): azimuth converted to radians plus π/2, the
azimuth-to-math-angle conversion. -/
def azRad (inp : ShadowInput) : ℝ := inp.azimuth * Real.pi / 180 + Real.pi / 2

/-- zenR (lines 348-350): π/2 minus the elevation in radians. -/
def zenRad (inp : ShadowInput) : ℝ := Real.pi / 2 - inp.elevation * Real.pi / 180

/-- shadowCastedDistance (lines 366-367): tan(zenith) times the cloud
height. -/
def shadowDistance (inp : ShadowInput) (h : ℝ) : ℝ := Real.tan (zenRad inp) * h

/-- The x pixel offset (lines 371-372): round(cos(azR) · distance /
nominalScale). -/
def xOffset (inp : ShadowInput) (h : ℝ) : ℤ :=
  round (Real.cos (azRad inp) * shadowDistance inp h / inp.scale)

/-- The y pixel offset (lines 376-377). -/
def yOffset (inp : ShadowInput) (h : ℝ) : ℤ :=
  round (Real.sin (azRad inp) * shadowDistance inp h / inp.scale)

/-- changeProj with a translated projection (lines 380-381): the mask
content moved by (x, y) grid cells. -/
def translateMask (x y : ℤ) (m : ℤ × ℤ → Prop) (p : ℤ × ℤ) : Prop :=
  m (p.1 - x, p.2 - y)

/-- The union (max) over all candidate cloud heights of the translated
cloud mask (lines 384-387). -/
def shadowUnion (inp : ShadowInput) (heights : List ℝ) (p : ℤ × ℤ) : Prop :=
  ∃ h ∈ heights, translateMask (xOffset inp h) (yOffset inp h) inp.cloud p

/-- focal_max with radius r (line 390): dilation by the disk of radius
r. -/
def focalMaxP (r : ℤ) (m : ℤ × ℤ → Prop) (p : ℤ × ℤ) : Prop :=
  ∃ u : ℤ × ℤ, (u.1 - p.1) ^ 2 + (u.2 - p.2) ^ 2 ≤ r ^ 2 ∧ m u

/-- darkPixels (lines 328-330): nir+swir1+swir2 sum below
shadowSumThresh. -/
def darkPixelsOf (inp : ShadowInput) (sumThresh : ℚ) (p : ℤ × ℤ) : Prop :=
  inp.nir p + inp.swir1 p + inp.swir2 p < sumThresh

/-- The cloudShadowTdomMask band (line 396): the dilated union of the
translated cloud masks, and-ed with the dark-pixel test and with the
negations of the tdomMask and of the cloud mask itself. -/
def cloudProjectMask (inp : ShadowInput) (sumThresh : ℚ) (heights : List ℝ)
    (r : ℤ) (p : ℤ × ℤ) : Prop :=
  focalMaxP r (shadowUnion inp heights) p ∧ darkPixelsOf inp sumThresh p ∧
    ¬ inp.tdomM p ∧ ¬ inp.cloud p

/-- The geometric unit-test scene: a single cloud pixel at (50, 50), no
TDOM outliers, sun azimuth 180°, elevation 45°, pixel size 30 m; the
dark-pixel test passes only at (50, 17). -/
def shadowTestInput : ShadowInput :=
  { cloud := fun p => p = (50, 50)
    tdomM := fun _ => False
    nir := fun p => if p = (50, 17) then 300 else 3000
    swir1 := fun p => if p = (50, 17) then 300 else 3000
    swir2 := fun p => if p = (50, 17) then 300 else 3000
    azimuth := 180
    elevation := 45
    scale := 30 }

/-- Claim C4 as stated: the computed integer offset for the test geometry
is (0, 33), and the resulting shadow mask is set exactly at (50, 50)
shifted by that offset, i.e. at (50, 83), and nowhere else. -/
def ClaimC4 : Prop :=
  xOffset shadowTestInput 1000 = 0 ∧ yOffset shadowTestInput 1000 = 33 ∧
  (∀ p : ℤ × ℤ, cloudProjectMask shadowTestInput 5000 [1000] 2 p ↔ p = (50, 83))

end

/- ================= Theorems ======================================= -/

theorem byteInt_nonneg (z : ℤ) : 0 ≤ byteInt z := by
  unfold byteInt
  exact le_min (by norm_num) (le_max_left 0 z)

theorem byteInt_le (z : ℤ) : byteInt z ≤ 255 := min_le_left _ _

theorem byteQ_nonneg (x : ℚ) : 0 ≤ byteQ x := byteInt_nonneg _

theorem byteQ_le (x : ℚ) : byteQ x ≤ 255 := byteInt_le _

/-- For a value already in [0, 255] the byte cast is just the floor. -/
theorem byteQ_eq_floor (x : ℚ) (h0 : 0 ≤ x) (h1 : x ≤ 255) : byteQ x = ⌊x⌋ := by
  unfold byteQ byteInt
  rw [max_eq_right (Int.floor_nonneg.mpr h0),
    min_eq_right (by exact_mod_cast Int.floor_le_floor h1)]

/-- The pixel equal to twice the cloud spectrum is fitted exactly (zero
residual) by the solution vector (0, 0, 0, 2), so the unconstrained least
squares unmixing of that pixel has a cloud component of 2. -/
theorem mixPixel_two_cloud : ∀ j, mixPixel ![0, 0, 0, 2] j = 2 * emL8 3 j := by
  intro j
  fin_cases j <;> norm_num [mixPixel, emL8, Fin.sum_univ_four]

/-- Claim C1 fails on the code: the raw unmixing solution (0, 0, 0, 2) —
attained exactly by the pixel that is twice the cloud endmember spectrum,
see `mixPixel_two_cloud` — produces a cloud fraction band of 200, outside
[0, 100]: the byte cast saturates at 255, not at 100. -/
theorem claim_C1_counterexample :
    ¬ ClaimC1 0 0 0 2 ∧ (getFractions 0 0 0 2).cloud = 200 := by
  norm_num [ClaimC1, getFractions, fracBand, byteQ, byteInt]

/-- Claim C1, amended: the fraction bands produced by getFractions are
non-negative (negative unmixing solutions clamped to 0, scaled by 100,
truncated to integer) and bounded by 255 (byte saturation), not by 100; and
the shade band equals `|100 − (gv+npv+soil)|` clipped to [0, 255] (byte
saturation), not to [0, 100]. -/
theorem claim_C1_amended (g n s c : ℚ) :
    (0 ≤ (getFractions g n s c).gv ∧ (getFractions g n s c).gv ≤ 255) ∧
    (0 ≤ (getFractions g n s c).npv ∧ (getFractions g n s c).npv ≤ 255) ∧
    (0 ≤ (getFractions g n s c).soil ∧ (getFractions g n s c).soil ≤ 255) ∧
    (0 ≤ (getFractions g n s c).cloud ∧ (getFractions g n s c).cloud ≤ 255) ∧
    (getFractions g n s c).shade =
      min 255 |100 - ((getFractions g n s c).gv + (getFractions g n s c).npv +
        (getFractions g n s c).soil)| := by
  refine ⟨⟨byteQ_nonneg _, byteQ_le _⟩, ⟨byteQ_nonneg _, byteQ_le _⟩,
    ⟨byteQ_nonneg _, byteQ_le _⟩, ⟨byteQ_nonneg _, byteQ_le _⟩, ?_⟩
  simp only [getFractions]
  rw [byteInt, max_eq_right (abs_nonneg _), abs_sub_comm]

theorem clamp01_min (x y : ℚ) : clamp01 (min x y) = min (clamp01 x) (clamp01 y) := by
  rcases le_total x y with h | h
  · have hc : clamp01 x ≤ clamp01 y := by unfold clamp01; gcongr
    rw [min_eq_left h, min_eq_left hc]
  · have hc : clamp01 y ≤ clamp01 x := by unfold clamp01; gcongr
    rw [min_eq_right h, min_eq_right hc]

theorem clamp01_min_one (t : ℚ) : clamp01 (min 1 t) = clamp01 t := by
  unfold clamp01
  rw [← min_assoc, min_self]

theorem clamp01_cloudScore (p : Px) : clamp01 (cloudScoreQ p) = specCloudScore p := by
  unfold cloudScoreQ specCloudScore
  rw [clamp01_min, clamp01_min, clamp01_min, clamp01_min_one]

theorem cloudScoreQ_le_one (p : Px) : cloudScoreQ p ≤ 1 := by
  unfold cloudScoreQ
  calc min (min (min (min 1 (rescaleQ p.blue 1000 3000))
        (rescaleQ (p.red + p.green + p.blue) 2000 8000))
        (rescaleQ (p.nir + p.swir1 + p.swir2) 3000 8000))
        (rescaleQ (ndsiQ p) (4 / 5) (3 / 5))
      ≤ min (min (min 1 (rescaleQ p.blue 1000 3000))
        (rescaleQ (p.red + p.green + p.blue) 2000 8000))
        (rescaleQ (p.nir + p.swir1 + p.swir2) 3000 8000) := min_le_left _ _
    _ ≤ min (min 1 (rescaleQ p.blue 1000 3000))
        (rescaleQ (p.red + p.green + p.blue) 2000 8000) := min_le_left _ _
    _ ≤ min 1 (rescaleQ p.blue 1000 3000) := min_le_left _ _
    _ ≤ 1 := min_le_left _ _

/-- Claim C2: the spectral cloud score pipeline of cloudScoreMask is
extensionally the claim-side pipeline: per-test linear rescaling to [0, 1]
with clamping, pixel score the minimum of the four clamped tests, and the
flag obtained by comparing score times 100 with the threshold.  This holds
for every pixel and every integer threshold. -/
theorem claim_C2_cloud_score_refines (p : Px) (cloudThresh : ℤ) :
    cloudScoreFlag p cloudThresh = specCloudFlag p cloudThresh := by
  unfold cloudScoreFlag specCloudFlag cloudScoreValue
  rw [decide_eq_decide, ← clamp01_cloudScore p]
  set s := cloudScoreQ p with hs
  have hs1 : s ≤ 1 := cloudScoreQ_le_one p
  rcases le_or_lt 0 s with h0 | h0
  · have hcl : clamp01 s = s := by
      unfold clamp01
      rw [min_eq_right hs1, max_eq_right h0]
    rw [hcl, byteQ_eq_floor (s * 100) (by positivity) (by nlinarith)]
    rw [Int.le_floor]
  · have hcl : clamp01 s = 0 := by
      unfold clamp01
      rw [min_eq_right hs1, max_eq_left h0.le]
    have hfl : ⌊s * 100⌋ < 0 := by
      apply Int.floor_lt.mpr
      push_cast
      nlinarith
    have hbq : byteQ (s * 100) = 0 := by
      unfold byteQ byteInt
      rw [max_eq_left hfl.le, min_eq_right (by norm_num)]
    rw [hbq, hcl]
    constructor
    · intro h
      exact_mod_cast (by simpa using h : cloudThresh ≤ 0)
    · intro h
      exact_mod_cast (by simpa using h : (cloudThresh : ℚ) ≤ 0)

/-- Claim C6 fails on the code in its rescaling clause: the indices are
stored through a truncating byte() cast, not through round(100·x + 100).
At fraction bands gv = npv = soil = 1 the gvs band is 33, the raw ndfi is
31/35, the stored ndfi is 188, while round(100·(31/35) + 100) = 189. -/
theorem claim_C6_counterexample :
    gvsB 1 1 1 = 33 ∧ ndfiB 1 1 1 = 188 ∧
    round (ndQ ((gvsB 1 1 1 : ℚ)) ((1 : ℚ) + 1) * 100 + 100) = 189 ∧
    ¬ (ndfiB 1 1 1 = round (ndQ ((gvsB 1 1 1 : ℚ)) ((1 : ℚ) + 1) * 100 + 100)) := by
  have h33 : gvsB 1 1 1 = 33 := by
    norm_num [gvsB, byteQ, byteInt]
  have h188 : ndfiB 1 1 1 = 188 := by
    norm_num [ndfiB, h33, ndQ, byteQ, byteInt]
  have h189 : round (ndQ ((gvsB 1 1 1 : ℚ)) ((1 : ℚ) + 1) * 100 + 100) = 189 := by
    rw [h33]
    norm_num [ndQ, round_eq]
  exact ⟨h33, h188, h189, by rw [h188, h189]; norm_num⟩

theorem byteQ_nd_bounds (a b : ℚ) (ha : 0 ≤ a) (hb : 0 ≤ b) (hab : 0 < a + b) :
    0 ≤ byteQ (ndQ a b * 100 + 100) ∧ byteQ (ndQ a b * 100 + 100) ≤ 200 := by
  have h1 : ndQ a b ≤ 1 := by
    unfold ndQ
    rw [div_le_one hab]
    linarith
  have h2 : -1 ≤ ndQ a b := by
    unfold ndQ
    rw [le_div_iff₀ hab]
    linarith
  have hx0 : 0 ≤ ndQ a b * 100 + 100 := by linarith
  have hx2 : ndQ a b * 100 + 100 ≤ 200 := by linarith
  rw [byteQ_eq_floor _ hx0 (by linarith)]
  refine ⟨Int.floor_nonneg.mpr hx0, ?_⟩
  have := Int.floor_le_floor hx2
  simpa using this

/-- Claim C6, amended: each of ndfi, sefi, wefi, fns is a normalized
difference (A − B)/(A + B) of a vegetation-weighted and a soil/shade-
weighted aggregate rescaled by 100·x + 100 — but stored with a truncating
byte() cast rather than round — and, at every pixel where the index is
defined (nonzero normalized-difference denominator; for fns this needs the
extra hypothesis hf), the stored value is an integer in [0, 200]. -/
theorem claim_C6_amended (g n s : ℕ) (hsum : 0 < g + n + s)
    (hf : 0 < (g : ℚ) + (shadeOf g n s : ℚ) + s) :
    (0 ≤ ndfiB g n s ∧ ndfiB g n s ≤ 200) ∧
    (0 ≤ sefiB g n s ∧ sefiB g n s ≤ 200) ∧
    (0 ≤ wefiB g n s ∧ wefiB g n s ≤ 200) ∧
    (0 ≤ fnsB g n s ∧ fnsB g n s ≤ 200) := by
  have hshade : (0 : ℚ) ≤ (shadeOf g n s : ℚ) := by
    exact_mod_cast byteInt_nonneg _
  refine ⟨?_, ?_, ?_, ?_⟩
  · -- ndfi
    have ha : (0 : ℚ) ≤ (gvsB g n s : ℚ) := by exact_mod_cast byteQ_nonneg _
    have hb : (0 : ℚ) ≤ (n : ℚ) + s := by positivity
    have hab : 0 < (gvsB g n s : ℚ) + ((n : ℚ) + s) := by
      rcases Nat.eq_zero_or_pos (n + s) with hns | hns
      · obtain ⟨hn, hs⟩ := Nat.add_eq_zero.mp hns
        subst hn; subst hs
        have hg : 0 < g := by omega
        have : gvsB g 0 0 = 100 := by
          unfold gvsB
          simp only [Nat.cast_zero, add_zero]
          rw [div_self (by exact_mod_cast hg.ne' : (g : ℚ) ≠ 0)]
          norm_num [byteQ, byteInt]
        rw [this]
        simp only [Nat.cast_zero, add_zero]
        norm_num
      · have : (0 : ℚ) < (n : ℚ) + s := by
          have : (0 : ℚ) < ((n + s : ℕ) : ℚ) := by exact_mod_cast hns
          push_cast at this
          linarith
        linarith
    exact byteQ_nd_bounds _ _ ha hb hab
  · -- sefi
    have ha : (0 : ℚ) ≤ ((g : ℚ) + n) / ((g : ℚ) + n + s) * 100 := by positivity
    have hb : (0 : ℚ) ≤ (s : ℚ) := by positivity
    have hab : 0 < ((g : ℚ) + n) / ((g : ℚ) + n + s) * 100 + (s : ℚ) := by
      rcases Nat.eq_zero_or_pos s with hs | hs
      · subst hs
        have hgn : 0 < g + n := by omega
        have hgnq : (0 : ℚ) < (g : ℚ) + n := by
          have : (0 : ℚ) < ((g + n : ℕ) : ℚ) := by exact_mod_cast hgn
          push_cast at this
          linarith
        simp only [Nat.cast_zero, add_zero]
        rw [div_self hgnq.ne']
        norm_num
      · have : (0 : ℚ) < (s : ℚ) := by exact_mod_cast hs
        linarith
    exact byteQ_nd_bounds _ _ ha hb hab
  · -- wefi
    have ha : (0 : ℚ) ≤ (g : ℚ) + n := by positivity
    have hb : (0 : ℚ) ≤ (s : ℚ) + (shadeOf g n s : ℚ) := by
      have : (0 : ℚ) ≤ (s : ℚ) := by positivity
      linarith
    have hab : 0 < ((g : ℚ) + n) + ((s : ℚ) + (shadeOf g n s : ℚ)) := by
      rcases Nat.eq_zero_or_pos (g + n) with hgn | hgn
      · obtain ⟨hg, hn⟩ := Nat.add_eq_zero.mp hgn
        have hs : 0 < s := by omega
        have : (0 : ℚ) < (s : ℚ) := by exact_mod_cast hs
        linarith
      · have : (0 : ℚ) < (g : ℚ) + n := by
          have : (0 : ℚ) < ((g + n : ℕ) : ℚ) := by exact_mod_cast hgn
          push_cast at this
          linarith
        have hsq : (0 : ℚ) ≤ (s : ℚ) := by positivity
        linarith
    exact byteQ_nd_bounds _ _ ha hb hab
  · -- fns
    have ha : (0 : ℚ) ≤ (g : ℚ) + (shadeOf g n s : ℚ) := by
      have : (0 : ℚ) ≤ (g : ℚ) := by positivity
      linarith
    have hb : (0 : ℚ) ≤ (s : ℚ) := by positivity
    exact byteQ_nd_bounds _ _ ha hb (by linarith)

/-- Witness for claim_C6_amended at the concrete fraction bands
(gv, npv, soil) = (50, 25, 25). -/
theorem claim_C6_amended_witness :
    (0 ≤ ndfiB 50 25 25 ∧ ndfiB 50 25 25 ≤ 200) ∧
    (0 ≤ sefiB 50 25 25 ∧ sefiB 50 25 25 ≤ 200) ∧
    (0 ≤ wefiB 50 25 25 ∧ wefiB 50 25 25 ≤ 200) ∧
    (0 ≤ fnsB 50 25 25 ∧ fnsB 50 25 25 ≤ 200) :=
  claim_C6_amended 50 25 25 (by norm_num)
    (by norm_num [shadeOf, byteInt])

/-- Claim C5 fails on the code: a pixel flagged only by the projected
TDOM shadow mask is still valid, because applyCloudAndShadowMask reduces
only cloudFlagMask, cloudScoreMask and cloudShadowFlagMask (the
cloudShadowTdomMask entry is commented out at line 516 of the main
script). -/
theorem claim_C5_counterexample :
    ¬ ClaimC5 ⟨false, false, false, false, true⟩ ∧
    validMask ⟨false, false, false, false, true⟩ = true := by
  refine ⟨?_, rfl⟩
  intro h
  simp [ClaimC5, validMask, anyNonZeroL] at h

/-- Claim C5, amended: the final valid mask is the negation of the OR over
the QA cloud flag, the spectral cloud score and the QA shadow flag only —
the TDOM and projected-shadow bands are computed but not applied — and
pixels with valid = false are excluded from downstream per-scene
computation as missing data, not zero: their per-scene value is dropped
(applyMaskValue) and dropped values do not enter the median reduction. -/
theorem claim_C5_amended (m : MaskBands) (v : ℚ) (xs : List (Option ℚ)) :
    validMask m = !(m.cloudFlagMask || m.cloudScoreMask || m.cloudShadowFlagMask) ∧
    (applyMaskValue m v = none ↔ validMask m = false) ∧
    medianMasked (none :: xs) = medianMasked xs := by
  refine ⟨?_, ?_, ?_⟩
  · rcases m with ⟨a, b, c, d, e⟩
    cases a <;> cases b <;> cases c <;> rfl
  · unfold applyMaskValue
    by_cases hv : validMask m <;> simp [hv]
  · simp [medianMasked]

theorem dryThr_test : dryThr testColl 25 = 20 := by
  norm_num [dryThr, qualityVals, testColl, interpPercentile,
    List.insertionSort, List.orderedInsert]

theorem wetThr_test : wetThr testColl 75 = 70 := by
  have h3 : Int.toNat 3 = 3 := rfl
  norm_num [wetThr, qualityVals, testColl, interpPercentile,
    List.insertionSort, List.orderedInsert, List.getD, h3]

theorem maskDry_test :
    maskDry testColl 25 = [some (10, 10), some (20, 20), none, none, none] := by
  unfold maskDry
  simp only [dryThr_test]
  simp only [testColl]
  norm_num [Option.bind]

theorem maskWet_test :
    maskWet testColl 75 = [none, none, none, some (70, 70), some (90, 90)] := by
  unfold maskWet
  simp only [wetThr_test]
  simp only [testColl]
  norm_num [Option.bind]

/-- Claim C7 fails on the code: the 25th percentile of [10,20,30,70,90] is
20 (both under linear interpolation and under nearest-rank), so the scene
with quality value 20 also enters the dry sub-collection, and the dry
median is 15, not 10; symmetrically the wet sub-collection also contains
the scene with value 70 and the wet median is 80, not 90. -/
theorem claim_C7_counterexample :
    qualityVals (maskDry testColl 25) = [10, 20] ∧
    qualityVals (maskWet testColl 75) = [70, 90] ∧
    ¬ ClaimC7 := by
  have hd : qualityVals (maskDry testColl 25) = [10, 20] := by
    rw [qualityVals, maskDry_test]
    norm_num [List.filterMap_cons]
  have hw : qualityVals (maskWet testColl 75) = [70, 90] := by
    rw [qualityVals, maskWet_test]
    norm_num [List.filterMap_cons]
  refine ⟨hd, hw, ?_⟩
  rintro ⟨h1, -, -, -⟩
  rw [hd] at h1
  simp at h1

/-- Claim C7, amended: the dry sub-collection keeps exactly the unmasked
scene pixels whose quality band does not exceed the percentileDry
threshold and the wet sub-collection those at least the percentileWet
threshold (both thresholds pixelwise across the collection); on the test
series [10,20,30,70,90] with percentiles 25/75 the thresholds are 20 and
70, the dry sub-collection holds the scenes with values 10 and 20 and the
wet one those with 70 and 90, with dry/wet median bands 15 and 80. -/
theorem claim_C7_amended :
    (∀ (coll : List (Option (ℚ × ℚ))) (p : ℚ) (sv : ℚ × ℚ),
      some sv ∈ maskDry coll p ↔ some sv ∈ coll ∧ sv.1 ≤ dryThr coll p) ∧
    (∀ (coll : List (Option (ℚ × ℚ))) (p : ℚ) (sv : ℚ × ℚ),
      some sv ∈ maskWet coll p ↔ some sv ∈ coll ∧ wetThr coll p ≤ sv.1) ∧
    dryThr testColl 25 = 20 ∧ wetThr testColl 75 = 70 ∧
    qualityVals (maskDry testColl 25) = [10, 20] ∧
    qualityVals (maskWet testColl 75) = [70, 90] ∧
    medianDryBand testColl 25 = 15 ∧ medianWetBand testColl 75 = 80 := by
  refine ⟨?_, ?_, dryThr_test, wetThr_test, ?_, ?_, ?_, ?_⟩
  · intro coll p sv
    simp only [maskDry, List.mem_map]
    constructor
    · rintro ⟨o, ho, hfo⟩
      cases o with
      | none => simp at hfo
      | some sv2 =>
        simp only [Option.some_bind] at hfo
        by_cases hc : sv2.1 ≤ dryThr coll p
        · rw [if_pos hc] at hfo
          obtain rfl : sv2 = sv := by simpa using hfo
          exact ⟨ho, hc⟩
        · rw [if_neg hc] at hfo
          simp at hfo
    · rintro ⟨ho, hle⟩
      exact ⟨some sv, ho, by simp [Option.some_bind, if_pos hle]⟩
  · intro coll p sv
    simp only [maskWet, List.mem_map]
    constructor
    · rintro ⟨o, ho, hfo⟩
      cases o with
      | none => simp at hfo
      | some sv2 =>
        simp only [Option.some_bind] at hfo
        by_cases hc : wetThr coll p ≤ sv2.1
        · rw [if_pos hc] at hfo
          obtain rfl : sv2 = sv := by simpa using hfo
          exact ⟨ho, hc⟩
        · rw [if_neg hc] at hfo
          simp at hfo
    · rintro ⟨ho, hle⟩
      exact ⟨some sv, ho, by simp [Option.some_bind, if_pos hle]⟩
  · rw [qualityVals, maskDry_test]; norm_num [List.filterMap_cons]
  · rw [qualityVals, maskWet_test]; norm_num [List.filterMap_cons]
  · rw [medianDryBand, maskDry_test]
    norm_num [bandVals, interpPercentile, List.insertionSort, List.orderedInsert,
      List.filterMap_cons, List.getD, Int.toNat_ofNat]
  · rw [medianWetBand, maskWet_test]
    norm_num [bandVals, interpPercentile, List.insertionSort, List.orderedInsert,
      List.filterMap_cons, List.getD, Int.toNat_ofNat]

/-- Claim C8 fails on the code: setProperties flags nothing — a scene
whose solar-azimuth candidates are all absent simply gets a null
sun_azimuth_angle, and it still passes the collection filters (only a
null cloud_cover is dropped, by the final cloud-cover filter). -/
theorem claim_C8_counterexample :
    propAzimuth sceneNoAzimuth = none ∧
    cloudCoverFilterKeep sceneNoAzimuth 100 = true ∧
    ¬ ClaimC8 := by
  refine ⟨rfl, rfl, ?_⟩
  intro h
  have := h sceneNoAzimuth 100 (Or.inr (Or.inr (Or.inr (Or.inl rfl))))
  norm_num [cloudCoverFilterKeep, propCloudCover, sceneNoAzimuth, truthyS] at this

/-- Claim C8, amended: there is no MissingMetadata flag.  A scene is
excluded from the collection exactly when its normalized cloud_cover
property does not resolve to a value below the ceiling: keep = true iff
cloud_cover resolves and passes the strict comparison, and a scene whose
cloud_cover candidates are all absent is dropped by that filter (run
continues, the filter is a per-scene predicate).  Scenes missing other
canonical fields (date, satellite, solar geometry) are not excluded. -/
theorem claim_C8_amended (p : SceneProps) (ceiling : ℚ) :
    (cloudCoverFilterKeep p ceiling = true ↔
      (∃ c, propCloudCover p = some c ∧ c < ceiling)) ∧
    (propCloudCover p = none → cloudCoverFilterKeep p ceiling = false) := by
  constructor
  · unfold cloudCoverFilterKeep
    cases hc : propCloudCover p with
    | none => simp
    | some c => simp
  · intro hc
    unfold cloudCoverFilterKeep
    rw [hc]

/-- Witness for claim_C8_amended: at sceneNoAzimuth (cloud cover 10) and
ceiling 100 the scene is kept; at sceneNoCloud (no cloud-cover candidate at
all) the implication hypothesis is discharged by rfl and the scene is
dropped. -/
theorem claim_C8_amended_witness :
    (∃ c, propCloudCover sceneNoAzimuth = some c ∧ c < 100) ∧
    cloudCoverFilterKeep sceneNoCloud 100 = false :=
  ⟨(claim_C8_amended sceneNoAzimuth 100).1.mp rfl,
    (claim_C8_amended sceneNoCloud 100).2 rfl⟩

/-- Claim C10: getCollection filters scenes by strict inequality on the
normalized cloud_cover property — a scene is kept iff its cloud_cover is
strictly below the ceiling — so with the default ceiling of 100 a scene
reporting exactly 100 percent cloud cover is excluded. -/
theorem claim_C10_strict_cloud_filter :
    (∀ (p : SceneProps) (v ceiling : ℚ), propCloudCover p = some v →
      (cloudCoverFilterKeep p ceiling = true ↔ v < ceiling)) ∧
    propCloudCover sceneFullClouds = some 100 ∧
    cloudCoverFilterKeep sceneFullClouds 100 = false := by
  refine ⟨?_, rfl, rfl⟩
  intro p v ceiling hv
  unfold cloudCoverFilterKeep
  rw [hv]
  simp

/-- Witness for claim_C10_strict_cloud_filter, applying the strictness
clause at the concrete scene with cloud_cover 100 and ceiling 100. -/
theorem claim_C10_witness :
    cloudCoverFilterKeep sceneFullClouds 100 = true ↔ (100 : ℚ) < 100 :=
  claim_C10_strict_cloud_filter.1 sceneFullClouds 100 100 rfl

/-- Claim C9 fails on the code: there is no retry at all — a tile whose
submission raises the quota-exceeded error is attempted exactly once, the
message is printed, and the loop moves to the next tile (the intended
re-raise compares the Exception object with a string and never fires). -/
theorem claim_C9_counterexample :
    runBatch [some quotaMessage] = ([1], false) ∧ ¬ ClaimC9 := by
  constructor
  · rfl
  · intro h
    have := h []
    simp [runBatch, pyExceptionEqStr] at this

/-- Claim C9, amended: there is no backoff and no retry — every tile
reached is attempted exactly once and the run never aborts, whatever the
outcomes are; in particular per-tile failures are isolated (all sibling
tiles are still attempted), and even the queue-limit error does not
surface, because the handler compares the Exception object with a string
(always false in Python). -/
theorem claim_C9_amended (tiles : List (Option String)) :
    runBatch tiles = (List.replicate tiles.length 1, false) := by
  induction tiles with
  | nil => rfl
  | cons o rest ih =>
    cases o with
    | none => simp [runBatch, ih, List.replicate_succ]
    | some m => simp [runBatch, pyExceptionEqStr, ih, List.replicate_succ]

theorem indicator01_pair (A B : Prop) :
    indicator01 A + indicator01 B = 2 ↔ A ∧ B := by
  by_cases hA : A <;> by_cases hB : B <;> simp [indicator01, hA, hB]

theorem darkOutlierRaw_iff (coll : List SceneIR) (zThresh sumThresh : ℝ)
    (s : SceneIR) (q : ℤ × ℤ) :
    darkOutlierRaw coll zThresh sumThresh s q ↔
      specDarkOutlier coll zThresh sumThresh s q := by
  unfold darkOutlierRaw specDarkOutlier
  rw [indicator01_pair]
  tauto

theorem tdomTest_nir_vals (q : ℤ × ℤ) :
    bandList tdomTestColl SceneIR.nir q = List.replicate 9 (4000 : ℝ) ++ [500] := by
  simp [bandList, tdomTestColl, constSceneIR]

theorem tdomTest_swir_vals (q : ℤ × ℤ) :
    bandList tdomTestColl SceneIR.swir1 q = List.replicate 9 (4000 : ℝ) ++ [500] := by
  simp [bandList, tdomTestColl, constSceneIR]

theorem tdomTest_mean :
    lMean (List.replicate 9 (4000 : ℝ) ++ [500]) = 3650 := by
  unfold lMean
  rw [List.sum_append, List.sum_replicate]
  simp [nsmul_eq_mul]
  norm_num

theorem tdomTest_var :
    lVar (List.replicate 9 (4000 : ℝ) ++ [500]) = 1102500 := by
  unfold lVar
  rw [List.map_append, List.map_replicate, tdomTest_mean, List.sum_append,
    List.sum_replicate]
  simp [nsmul_eq_mul]
  norm_num

theorem tdomTest_std :
    lStd (List.replicate 9 (4000 : ℝ) ++ [500]) = 1050 := by
  unfold lStd
  rw [tdomTest_var, show (1102500 : ℝ) = 1050 ^ 2 by norm_num]
  exact Real.sqrt_sq (by norm_num)

/-- Claim C3: (i) tdom flags a pixel of a scene as a dark outlier exactly
when the temporal z-score is below the threshold for both nir and swir1
AND the nir+swir1 sum is below the darkness threshold, followed by a
focal_min of radius dilatePixels; (ii) on the synthetic 10-scene
collection with NIR+SWIR1 sums 8000 (9 scenes) and 1000 (1 scene), with
shadowSumThresh = 5000, zScoreThresh = −1 and dilatePixels = 2, exactly
the outlier scene is flagged dark at every pixel. -/
theorem claim_C3_tdom :
    (∀ (coll : List SceneIR) (zThresh sumThresh : ℝ) (r : ℤ) (s : SceneIR)
      (q : ℤ × ℤ),
      tdomMaskOf coll zThresh sumThresh r s q ↔
        focalMinP r (specDarkOutlier coll zThresh sumThresh s) q) ∧
    (∀ q : ℤ × ℤ, tdomMaskOf tdomTestColl (-1) 5000 2 (constSceneIR 500) q) ∧
    (∀ q : ℤ × ℤ, ¬ tdomMaskOf tdomTestColl (-1) 5000 2 (constSceneIR 4000) q) ∧
    (∀ s ∈ tdomTestColl, ∀ q : ℤ × ℤ,
      tdomMaskOf tdomTestColl (-1) 5000 2 s q ↔ s = constSceneIR 500) := by
  have hflag : ∀ q : ℤ × ℤ, tdomMaskOf tdomTestColl (-1) 5000 2 (constSceneIR 500) q := by
    intro q u hu
    unfold darkOutlierRaw
    rw [tdomTest_nir_vals, tdomTest_swir_vals, tdomTest_mean, tdomTest_std]
    have hz : zScoreR ((constSceneIR 500).nir u) 3650 1050 < -1 := by
      unfold zScoreR constSceneIR
      norm_num
    have hz2 : zScoreR ((constSceneIR 500).swir1 u) 3650 1050 < -1 := by
      unfold zScoreR constSceneIR
      norm_num
    refine ⟨by simp [indicator01, hz, hz2], ?_⟩
    unfold constSceneIR
    norm_num
  have hnotflag : ∀ q : ℤ × ℤ,
      ¬ tdomMaskOf tdomTestColl (-1) 5000 2 (constSceneIR 4000) q := by
    intro q h
    have hq := h q (by norm_num)
    have := hq.2
    unfold constSceneIR at this
    norm_num at this
  have hne : constSceneIR (4000 : ℝ) ≠ constSceneIR 500 := by
    intro h
    have := congrArg (fun s => s.nir (0, 0)) h
    unfold constSceneIR at this
    norm_num at this
  refine ⟨?_, hflag, hnotflag, ?_⟩
  · intro coll zThresh sumThresh r s q
    unfold tdomMaskOf focalMinP
    constructor
    · intro h u hu
      exact (darkOutlierRaw_iff coll zThresh sumThresh s u).mp (h u hu)
    · intro h u hu
      exact (darkOutlierRaw_iff coll zThresh sumThresh s u).mpr (h u hu)
  · intro s hs q
    rcases List.mem_append.mp hs with hs9 | hs1
    · have : s = constSceneIR 4000 := (List.eq_of_mem_replicate hs9)
      subst this
      constructor
      · intro h
        exact absurd h (hnotflag q)
      · intro h
        exact absurd h hne
    · have : s = constSceneIR 500 := by simpa using hs1
      subst this
      simp [hflag q]

/-- Witness for claim_C3_tdom: the membership clause applied to the
outlier scene of the test collection at the pixel (0, 0), with the
membership hypothesis discharged by evaluation. -/
theorem claim_C3_tdom_witness :
    tdomMaskOf tdomTestColl (-1) 5000 2 (constSceneIR 500) (0, 0) ↔
      constSceneIR 500 = constSceneIR 500 :=
  claim_C3_tdom.2.2.2 (constSceneIR 500) (by simp [tdomTestColl]) (0, 0)

theorem azRad_test : azRad shadowTestInput = Real.pi + Real.pi / 2 := by
  show (180 : ℝ) * Real.pi / 180 + Real.pi / 2 = Real.pi + Real.pi / 2
  ring

theorem cos_azRad_test : Real.cos (azRad shadowTestInput) = 0 := by
  rw [azRad_test]
  simp [Real.cos_add]

theorem sin_azRad_test : Real.sin (azRad shadowTestInput) = -1 := by
  rw [azRad_test]
  simp [Real.sin_add]

theorem shadowDistance_test : shadowDistance shadowTestInput 1000 = 1000 := by
  show Real.tan (zenRad shadowTestInput) * 1000 = 1000
  have hz : zenRad shadowTestInput = Real.pi / 4 := by
    show Real.pi / 2 - (45 : ℝ) * Real.pi / 180 = Real.pi / 4
    ring
  rw [hz, Real.tan_pi_div_four, one_mul]

theorem xOffset_test : xOffset shadowTestInput 1000 = 0 := by
  unfold xOffset
  rw [cos_azRad_test, shadowDistance_test]
  norm_num

theorem yOffset_test : yOffset shadowTestInput 1000 = -33 := by
  unfold yOffset
  rw [sin_azRad_test, shadowDistance_test]
  have h : (-1 : ℝ) * 1000 / shadowTestInput.scale = -100 / 3 := by
    show (-1 : ℝ) * 1000 / 30 = -100 / 3
    norm_num
  rw [h, round_eq]
  rw [Int.floor_eq_iff]
  constructor
  · norm_num
  · norm_num

/-- Claim C4 fails on the code in the sign of the offset: with azimuth
180° the math angle is 270°, whose sine is −1, so the computed y offset is
round(−1000/30) = −33, not 33 (as the claim itself derives), and the
shadow mask is not set at (50, 83). -/
theorem claim_C4_counterexample :
    yOffset shadowTestInput 1000 = -33 ∧
    ¬ cloudProjectMask shadowTestInput 5000 [1000] 2 (50, 83) ∧
    ¬ ClaimC4 := by
  have hdark : ¬ darkPixelsOf shadowTestInput 5000 (50, 83) := by
    unfold darkPixelsOf shadowTestInput
    norm_num
  refine ⟨yOffset_test, fun h => hdark h.2.1, fun h => ?_⟩
  unfold ClaimC4 at h
  have hy := h.2.1
  rw [yOffset_test] at hy
  norm_num at hy

/-- Claim C4, amended: for the test geometry the computed integer offset
is (0, −33) (33 whole pixels, consistent with cos(270°) = 0 and
sin(270°) = −1), the union of the translated cloud masks is set exactly at
the shifted pixel (50, 17), and the final shadow mask — after dilation,
the dark-pixel test, and exclusion of cloud and TDOM pixels — is set
exactly at (50, 17) and nowhere else. -/
theorem claim_C4_amended :
    xOffset shadowTestInput 1000 = 0 ∧
    yOffset shadowTestInput 1000 = -33 ∧
    (∀ p : ℤ × ℤ, shadowUnion shadowTestInput [1000] p ↔ p = (50, 17)) ∧
    (∀ p : ℤ × ℤ,
      cloudProjectMask shadowTestInput 5000 [1000] 2 p ↔ p = (50, 17)) := by
  have hunion : ∀ p : ℤ × ℤ, shadowUnion shadowTestInput [1000] p ↔ p = (50, 17) := by
    intro p
    unfold shadowUnion
    constructor
    · rintro ⟨h, hh, ht⟩
      obtain rfl : h = (1000 : ℝ) := by simpa using hh
      unfold translateMask at ht
      rw [xOffset_test, yOffset_test] at ht
      have hc : (p.1 - 0, p.2 - (-33)) = ((50 : ℤ), (50 : ℤ)) := ht
      have h1 : p.1 - 0 = 50 := congrArg Prod.fst hc
      have h2 : p.2 - (-33) = 50 := congrArg Prod.snd hc
      have : p = (p.1, p.2) := rfl
      rw [this, Prod.mk.injEq]
      omega
    · rintro rfl
      refine ⟨1000, by simp, ?_⟩
      unfold translateMask
      rw [xOffset_test, yOffset_test]
      show ((50 : ℤ) - 0, (17 : ℤ) - (-33)) = ((50 : ℤ), (50 : ℤ))
      norm_num
  refine ⟨xOffset_test, yOffset_test, hunion, ?_⟩
  intro p
  constructor
  · rintro ⟨-, hdark, -, -⟩
    by_contra hne
    have hn : shadowTestInput.nir p = 3000 := by
      show (if p = (50, 17) then (300 : ℚ) else 3000) = 3000
      rw [if_neg hne]
    have hs1 : shadowTestInput.swir1 p = 3000 := by
      show (if p = (50, 17) then (300 : ℚ) else 3000) = 3000
      rw [if_neg hne]
    have hs2 : shadowTestInput.swir2 p = 3000 := by
      show (if p = (50, 17) then (300 : ℚ) else 3000) = 3000
      rw [if_neg hne]
    unfold darkPixelsOf at hdark
    rw [hn, hs1, hs2] at hdark
    norm_num at hdark
  · rintro rfl
    refine ⟨⟨(50, 17), by norm_num, (hunion (50, 17)).mpr rfl⟩, ?_, ?_, ?_⟩
    · unfold darkPixelsOf shadowTestInput
      norm_num
    · intro h
      exact h
    · intro h
      have : ((50 : ℤ), (17 : ℤ)) = ((50 : ℤ), (50 : ℤ)) := h
      rw [Prod.mk.injEq] at this
      omega

end MBM
